/-
Verification of the walk-forward validation core of the Portfolio_Allocation
repository: period generation (daily variant in CODE/Price_Movement.py,
hourly variant in scripts/walk_through_validation.py) and period-based
slicing (slice_data_by_period in both files).

Timestamps are modelled at hour resolution: a pandas Timestamp is a clock
(year, month, day, hour) together with a timezone-awareness flag (utc).
All timestamp inputs reaching this core carry zero minutes and seconds,
and every operation the source applies (pd.DateOffset(years=1),
pd.DateOffset(months=1), timedelta(days=1), timedelta(hours=1),
replace(hour=0, minute=0)) maps hour-resolution values to hour-resolution
values, so this resolution is exact for the code under verification.
Chronological comparison of clocks is embedded by the strictly monotone
key function below.
-/
import Mathlib

namespace WalkForward

/-- Gregorian leap-year test, as implemented by the standard calendar used
by pandas Timestamps. -/
def isLeap (y : Nat) : Bool :=
  (y % 4 == 0 && y % 100 != 0) || (y % 400 == 0)

/-- Number of days in a month of a given year. -/
def dim (y m : Nat) : Nat :=
  if m = 2 then (if isLeap y then 29 else 28)
  else if m = 4 ∨ m = 6 ∨ m = 9 ∨ m = 11 then 30
  else 31

/-- A pandas Timestamp at hour resolution: a wall-clock value together with
its timezone-awareness flag (`utc = true` models a tz-aware timestamp;
the tz identity of aware timestamps is abstracted to the flag, aware
clocks being read as UTC clocks). -/
structure TS where
  year : Nat
  month : Nat
  day : Nat
  hour : Nat
  utc : Bool
deriving DecidableEq

/-- The clock fields denote an actual calendar date and hour. Every
timestamp parseable by pd.to_datetime satisfies this. -/
def TS.Valid (t : TS) : Prop :=
  1 ≤ t.month ∧ t.month ≤ 12 ∧ 1 ≤ t.day ∧ t.day ≤ dim t.year t.month ∧ t.hour ≤ 23

instance (t : TS) : Decidable t.Valid := by
  unfold TS.Valid; infer_instance

/-- Month index on the infinite month axis. -/
def TS.ym (t : TS) : Nat := t.year * 12 + t.month

/-- Strictly monotone embedding of valid clocks into Nat: two valid
timestamps compare chronologically exactly as their keys compare.
Timestamp comparisons in the source are embedded through this key. -/
def TS.key (t : TS) : Nat := (t.ym * 32 + t.day) * 24 + t.hour

/-- t + pd.DateOffset(years=1): same month, day clamped into the target
month (Feb 29 + 1 year = Feb 28), time of day preserved. -/
def addYears1 (t : TS) : TS :=
  { t with year := t.year + 1, day := min t.day (dim (t.year + 1) t.month) }

/-- t + pd.DateOffset(months=1): next month, day clamped into the target
month (Jan 31 + 1 month = Feb 28), time of day preserved. -/
def addMonths1 (t : TS) : TS :=
  if t.month = 12 then
    { t with year := t.year + 1, month := 1, day := min t.day (dim (t.year + 1) 1) }
  else
    { t with month := t.month + 1, day := min t.day (dim t.year (t.month + 1)) }

/-- t + timedelta(days=1). -/
def addDays1 (t : TS) : TS :=
  if t.day < dim t.year t.month then { t with day := t.day + 1 }
  else if t.month < 12 then { t with month := t.month + 1, day := 1 }
  else { t with year := t.year + 1, month := 1, day := 1 }

/-- t - timedelta(days=1). -/
def subDays1 (t : TS) : TS :=
  if 1 < t.day then { t with day := t.day - 1 }
  else if 1 < t.month then { t with month := t.month - 1, day := dim t.year (t.month - 1) }
  else { t with year := t.year - 1, month := 12, day := 31 }

/-- t + timedelta(hours=1). -/
def addHours1 (t : TS) : TS :=
  if t.hour < 23 then { t with hour := t.hour + 1 }
  else ⟨(addDays1 t).year, (addDays1 t).month, (addDays1 t).day, 0, (addDays1 t).utc⟩

/-- t - timedelta(hours=1). -/
def subHours1 (t : TS) : TS :=
  if 0 < t.hour then { t with hour := t.hour - 1 }
  else ⟨(subDays1 t).year, (subDays1 t).month, (subDays1 t).day, 23, (subDays1 t).utc⟩

/-- t.replace(hour=0, minute=0): reset the time of day to 00:00 (the model
carries no minutes, so resetting the hour is the whole operation). -/
def floorDay (t : TS) : TS := { t with hour := 0 }

/-- One (train, test) window, mirroring the dict built by both source
variants of generate_periods. -/
structure Period where
  train_start : TS
  train_end : TS
  test_start : TS
  test_end : TS
deriving DecidableEq

/-- Loop body of the daily variant (CODE/Price_Movement.py lines 14-17):
train_end = train_start + DateOffset(years=1) - timedelta(days=1),
test_start = train_end + timedelta(days=1),
test_end = test_start + DateOffset(months=1) - timedelta(days=1). -/
def mkPeriodDaily (c : TS) : Period :=
  let tre := subDays1 (addYears1 c)
  let tes := addDays1 tre
  { train_start := c, train_end := tre, test_start := tes,
    test_end := subDays1 (addMonths1 tes) }

/-- Loop body of the hourly variant (scripts/walk_through_validation.py
lines 19-22): train_end = train_start + DateOffset(years=1) -
timedelta(hours=1), test_start = (train_end + timedelta(hours=1))
.replace(hour=0, minute=0), test_end = test_start + DateOffset(months=1)
- timedelta(hours=1). -/
def mkPeriodHourly (c : TS) : Period :=
  let tre := subHours1 (addYears1 c)
  let tes := floorDay (addHours1 tre)
  { train_start := c, train_end := tre, test_start := tes,
    test_end := subHours1 (addMonths1 tes) }

/-- The while loop shared by both variants, parametrized by the loop body:
while cursor <= end: build the period; break (emitting nothing further)
as soon as test_end > end; otherwise emit and advance the cursor by
DateOffset(months=1). The loop is embedded with explicit fuel; fuelFor
below always supplies enough fuel (walkAux_stop proves the loop halts
only at the source break or loop condition, never from fuel). -/
def walkAux (mk : TS → Period) (fin : TS) : Nat → TS → List Period
  | 0, _ => []
  | n + 1, cur =>
    if cur.key ≤ fin.key then
      let p := mk cur
      if fin.key < p.test_end.key then []
      else p :: walkAux mk fin n (addMonths1 cur)
    else []

/-- Months from the cursor through the end timestamp, a bound on the number
of loop iterations: the cursor advances one calendar month per step. -/
def fuelFor (s e : TS) : Nat := e.ym + 1 - s.ym

/-- Daily-variant generate_periods on already-parsed timestamps. -/
def generate_periods_ts (s e : TS) : List Period :=
  walkAux mkPeriodDaily e (fuelFor s e) s

/-- A parseable input to pd.to_datetime: a clock plus an optional UTC
offset in hours (none models a timezone-naive input, some o a
timezone-aware input with offset o). -/
structure RawInput where
  year : Nat
  month : Nat
  day : Nat
  hour : Nat
  tzOffset : Option Int
deriving DecidableEq

/-- Shift a timestamp by a signed number of hours (used to convert an
aware input clock to its UTC clock). -/
def shiftHours (t : TS) (n : Int) : TS :=
  if 0 ≤ n then addHours1^[n.toNat] t else subHours1^[(-n).toNat] t

/-- pd.to_datetime(x) without utc=True: the clock is kept and the
timezone-awareness of the input is kept (naive stays naive, aware stays
aware). -/
def pd_to_datetime (r : RawInput) : TS :=
  ⟨r.year, r.month, r.day, r.hour, r.tzOffset.isSome⟩

/-- pd.to_datetime(x, utc=True): a naive input is interpreted as UTC
(clock kept, flag set), an aware input is converted to UTC (clock shifted
by minus its offset, flag set). The result is always tz-aware. -/
def pd_to_datetime_utc (r : RawInput) : TS :=
  match r.tzOffset with
  | none => ⟨r.year, r.month, r.day, r.hour, true⟩
  | some o => shiftHours ⟨r.year, r.month, r.day, r.hour, true⟩ (-o)

/-- CODE/Price_Movement.py generate_periods: parses both bounds with plain
pd.to_datetime and runs the daily loop. -/
def generate_periods (start_date end_date : RawInput) : List Period :=
  generate_periods_ts (pd_to_datetime start_date) (pd_to_datetime end_date)

/-- scripts/walk_through_validation.py PeriodGenerator state: the two
bounds stored by __init__. -/
structure PeriodGenerator where
  start_date : TS
  end_date : TS

/-- PeriodGenerator.__init__: both bounds parsed with
pd.to_datetime(..., utc=True). -/
def PeriodGenerator.init (s e : RawInput) : PeriodGenerator :=
  ⟨pd_to_datetime_utc s, pd_to_datetime_utc e⟩

/-- PeriodGenerator.generate_periods: the hourly loop over the stored
bounds. -/
def PeriodGenerator.generate_periods (g : PeriodGenerator) : List Period :=
  walkAux mkPeriodHourly g.end_date (fuelFor g.start_date g.end_date) g.start_date

section Slicing

variable {ρ : Type}

/-- A pandas DataFrame as the slicer sees it: a list of rows of some row
type, a set of column names, a per-column dtype awareness flag, and for
each row the timestamp stored in a (datetime) column. -/
structure DataFrame (ρ : Type) where
  cols : List String
  colUtc : String → Bool
  entry : ρ → String → TS
  rows : List ρ

/-- data[c] >= b in pandas: raises KeyError if the column is missing,
raises TypeError if the column dtype and the scalar disagree on
timezone-awareness (this holds at dtype level, independent of the rows),
otherwise yields the boolean mask. -/
def seriesGe (df : DataFrame ρ) (c : String) (b : TS) : Except String (ρ → Bool) :=
  if c ∈ df.cols then
    if df.colUtc c = b.utc then
      Except.ok (fun r => decide (b.key ≤ (df.entry r c).key))
    else Except.error "TypeError: Invalid comparison between dtype=datetime64 and Timestamp"
  else Except.error ("KeyError: " ++ c)

/-- data[c] <= b in pandas, with the same failure semantics as seriesGe. -/
def seriesLe (df : DataFrame ρ) (c : String) (b : TS) : Except String (ρ → Bool) :=
  if c ∈ df.cols then
    if df.colUtc c = b.utc then
      Except.ok (fun r => decide ((df.entry r c).key ≤ b.key))
    else Except.error "TypeError: Invalid comparison between dtype=datetime64 and Timestamp"
  else Except.error ("KeyError: " ++ c)

/-- One iteration of the slicing loop (both sources, identical text):
train_data = data[(data[c] >= train_start) & (data[c] <= train_end)],
test_data = data[(data[c] >= test_start) & (data[c] <= test_end)].
Boolean-mask indexing keeps exactly the rows whose mask is true, in their
original order, which is List.filter. -/
def sliceOne (df : DataFrame ρ) (c : String) (p : Period) :
    Except String (List ρ × List ρ) := do
  let g1 ← seriesGe df c p.train_start
  let l1 ← seriesLe df c p.train_end
  let g2 ← seriesGe df c p.test_start
  let l2 ← seriesLe df c p.test_end
  Except.ok (df.rows.filter (fun r => g1 r && l1 r),
             df.rows.filter (fun r => g2 r && l2 r))

/-- CODE/Price_Movement.py slice_data_by_period: one (train, test) pair per
period, in period order; the first pandas error aborts the whole call. -/
def slice_data_by_period (df : DataFrame ρ) (periods : List Period) (c : String) :
    Except String (List (List ρ × List ρ)) :=
  match periods with
  | [] => Except.ok []
  | p :: ps => do
      let pair ← sliceOne df c p
      let rest ← slice_data_by_period df ps c
      Except.ok (pair :: rest)

/-- walk_through_validation.py PeriodGenerator.slice_data_by_period:
regenerates the periods and runs the same slicing loop. -/
def PeriodGenerator.slice_data_by_period (g : PeriodGenerator) (df : DataFrame ρ)
    (c : String) : Except String (List (List ρ × List ρ)) :=
  WalkForward.slice_data_by_period df g.generate_periods c

/-- A small concrete frame used to exercise the slicer: four rows indexed
0..3 whose naive timestamps are 2021-01-01 through 2021-01-04. -/
def dfExample : DataFrame Nat :=
  { cols := ["ts"], colUtc := fun _ => false,
    entry := fun r _ => ⟨2021, 1, r + 1, 0, false⟩, rows := [0, 1, 2, 3] }

/-- A concrete frame lacking the timestamp column. -/
def dfNoCol : DataFrame Nat :=
  { cols := ["other"], colUtc := fun _ => false,
    entry := fun _ _ => ⟨2021, 1, 1, 0, false⟩, rows := [0] }

/-- A concrete period with naive bounds inside the dfExample range. -/
def periodExample : Period :=
  ⟨⟨2021, 1, 1, 0, false⟩, ⟨2021, 1, 2, 0, false⟩,
   ⟨2021, 1, 3, 0, false⟩, ⟨2021, 1, 4, 0, false⟩⟩

/-- A concrete period with UTC-aware bounds (as produced by the hourly
variant after coercion). -/
def periodExampleUtc : Period :=
  ⟨⟨2021, 6, 1, 0, true⟩, ⟨2022, 5, 31, 23, true⟩,
   ⟨2022, 6, 1, 0, true⟩, ⟨2022, 6, 30, 23, true⟩⟩

end Slicing

/-! Basic facts about the calendar primitives. -/

theorem dim_ge (y m : Nat) : 28 ≤ dim y m := by
  unfold dim; split_ifs <;> omega

theorem dim_le (y m : Nat) : dim y m ≤ 31 := by
  unfold dim; split_ifs <;> omega

theorem dim_1 (y : Nat) : dim y 1 = 31 := rfl

theorem dim_12 (y : Nat) : dim y 12 = 31 := rfl

theorem valid_addYears1 {t : TS} (h : t.Valid) : (addYears1 t).Valid := by
  obtain ⟨y, m, d, hh, u⟩ := t
  obtain ⟨h1, h2, h3, h4, h5⟩ := h
  have d1 := dim_ge (y + 1) m
  unfold addYears1 TS.Valid at *
  dsimp only at *
  omega

theorem valid_addMonths1 {t : TS} (h : t.Valid) : (addMonths1 t).Valid := by
  obtain ⟨y, m, d, hh, u⟩ := t
  obtain ⟨h1, h2, h3, h4, h5⟩ := h
  have d1 := dim_ge (y + 1) 1
  have d2 := dim_ge y (m + 1)
  unfold addMonths1 TS.Valid at *
  dsimp only at *
  split_ifs <;> (try dsimp only at *) <;> omega

theorem valid_addDays1 {t : TS} (h : t.Valid) : (addDays1 t).Valid := by
  obtain ⟨y, m, d, hh, u⟩ := t
  obtain ⟨h1, h2, h3, h4, h5⟩ := h
  have d1 := dim_ge y (m + 1)
  have d2 := dim_ge (y + 1) 1
  unfold addDays1 TS.Valid at *
  dsimp only at *
  split_ifs <;> (try dsimp only at *) <;> omega

theorem valid_subDays1 {t : TS} (h : t.Valid) : (subDays1 t).Valid := by
  obtain ⟨y, m, d, hh, u⟩ := t
  obtain ⟨h1, h2, h3, h4, h5⟩ := h
  have d1 := dim_ge y (m - 1)
  have d2 := dim_le y (m - 1)
  have d3 : dim (y - 1) 12 = 31 := dim_12 _
  unfold subDays1 TS.Valid at *
  dsimp only at *
  split_ifs <;> (try dsimp only at *) <;> omega

theorem valid_addHours1 {t : TS} (h : t.Valid) : (addHours1 t).Valid := by
  have hd := valid_addDays1 h
  obtain ⟨y, m, d, hh, u⟩ := t
  obtain ⟨h1, h2, h3, h4, h5⟩ := h
  unfold addHours1
  split_ifs with hc
  · unfold TS.Valid at *; dsimp only at *; omega
  · obtain ⟨g1, g2, g3, g4, g5⟩ := hd
    exact ⟨g1, g2, g3, g4, by dsimp only; omega⟩

theorem valid_subHours1 {t : TS} (h : t.Valid) : (subHours1 t).Valid := by
  have hd := valid_subDays1 h
  obtain ⟨y, m, d, hh, u⟩ := t
  obtain ⟨h1, h2, h3, h4, h5⟩ := h
  unfold subHours1
  split_ifs with hc
  · unfold TS.Valid at *; dsimp only at *; omega
  · obtain ⟨g1, g2, g3, g4, g5⟩ := hd
    exact ⟨g1, g2, g3, g4, by dsimp only; omega⟩

theorem valid_floorDay {t : TS} (h : t.Valid) : (floorDay t).Valid := by
  obtain ⟨y, m, d, hh, u⟩ := t
  obtain ⟨h1, h2, h3, h4, h5⟩ := h
  exact ⟨h1, h2, h3, h4, Nat.zero_le _⟩

/-! Field-preservation facts. -/

theorem addYears1_year (t : TS) : (addYears1 t).year = t.year + 1 := rfl

theorem addYears1_hour (t : TS) : (addYears1 t).hour = t.hour := rfl

theorem addMonths1_hour (t : TS) : (addMonths1 t).hour = t.hour := by
  unfold addMonths1; split_ifs <;> rfl

theorem addMonths1_year_ge (t : TS) : t.year ≤ (addMonths1 t).year := by
  unfold addMonths1; split_ifs <;> (try dsimp only at *) <;> omega

theorem addDays1_hour (t : TS) : (addDays1 t).hour = t.hour := by
  unfold addDays1; split_ifs <;> rfl

theorem subDays1_hour (t : TS) : (subDays1 t).hour = t.hour := by
  unfold subDays1; split_ifs <;> rfl

theorem floorDay_hour (t : TS) : (floorDay t).hour = 0 := rfl

theorem addYears1_utc (t : TS) : (addYears1 t).utc = t.utc := rfl

theorem addMonths1_utc (t : TS) : (addMonths1 t).utc = t.utc := by
  unfold addMonths1; split_ifs <;> rfl

theorem addDays1_utc (t : TS) : (addDays1 t).utc = t.utc := by
  unfold addDays1; split_ifs <;> rfl

theorem subDays1_utc (t : TS) : (subDays1 t).utc = t.utc := by
  unfold subDays1; split_ifs <;> rfl

theorem addHours1_utc (t : TS) : (addHours1 t).utc = t.utc := by
  unfold addHours1; split_ifs with hc
  · rfl
  · exact addDays1_utc t

theorem subHours1_utc (t : TS) : (subHours1 t).utc = t.utc := by
  unfold subHours1; split_ifs with hc
  · rfl
  · exact subDays1_utc t

theorem floorDay_utc (t : TS) : (floorDay t).utc = t.utc := rfl

theorem floorDay_of_hour0 {t : TS} (h : t.hour = 0) : floorDay t = t := by
  obtain ⟨y, m, d, hh, u⟩ := t
  unfold floorDay
  dsimp only at h
  rw [h]

/-! Chronological-order facts, expressed through the key embedding. -/

theorem key_lt_addMonths1 {t : TS} (h : t.Valid) : t.key < (addMonths1 t).key := by
  obtain ⟨y, m, d, hh, u⟩ := t
  obtain ⟨h1, h2, h3, h4, h5⟩ := h
  have d1 := dim_le y m
  unfold addMonths1 TS.key TS.ym
  dsimp only at *
  split_ifs <;> (try dsimp only at *) <;> omega

theorem key_lt_addDays1 {t : TS} (h : t.Valid) : t.key < (addDays1 t).key := by
  obtain ⟨y, m, d, hh, u⟩ := t
  obtain ⟨h1, h2, h3, h4, h5⟩ := h
  have d1 := dim_le y m
  unfold addDays1 TS.key TS.ym
  dsimp only at *
  split_ifs <;> (try dsimp only at *) <;> omega

theorem key_lt_addHours1 {t : TS} (h : t.Valid) : t.key < (addHours1 t).key := by
  obtain ⟨y, m, d, hh, u⟩ := t
  obtain ⟨h1, h2, h3, h4, h5⟩ := h
  have d1 := dim_le y m
  unfold addHours1 addDays1 TS.key TS.ym
  dsimp only at *
  split_ifs <;> (try dsimp only at *) <;> omega

theorem key_subDays1_lt {t : TS} (h : t.Valid) (hy : 1 ≤ t.year) :
    (subDays1 t).key < t.key := by
  obtain ⟨y, m, d, hh, u⟩ := t
  obtain ⟨h1, h2, h3, h4, h5⟩ := h
  have d1 := dim_le y (m - 1)
  unfold subDays1 TS.key TS.ym
  dsimp only at *
  split_ifs <;> (try dsimp only at *) <;> omega

theorem key_subHours1_lt {t : TS} (h : t.Valid) (hy : 1 ≤ t.year) :
    (subHours1 t).key < t.key := by
  obtain ⟨y, m, d, hh, u⟩ := t
  obtain ⟨h1, h2, h3, h4, h5⟩ := h
  have d1 := dim_le y (m - 1)
  unfold subHours1 subDays1 TS.key TS.ym
  dsimp only at *
  split_ifs <;> (try dsimp only at *) <;> omega

theorem key_floorDay_le (t : TS) : (floorDay t).key ≤ t.key := by
  obtain ⟨y, m, d, hh, u⟩ := t
  unfold floorDay TS.key TS.ym
  dsimp only
  omega

theorem key_lt_trainEndD {t : TS} (h : t.Valid) :
    t.key < (subDays1 (addYears1 t)).key := by
  obtain ⟨y, m, d, hh, u⟩ := t
  obtain ⟨h1, h2, h3, h4, h5⟩ := h
  have d1 := dim_le y m
  have d2 := dim_ge (y + 1) m
  have d3 := dim_ge (y + 1) (m - 1)
  unfold subDays1 addYears1 TS.key TS.ym
  dsimp only at *
  split_ifs <;> (try dsimp only at *) <;> omega

theorem key_lt_trainEndH {t : TS} (h : t.Valid) :
    t.key < (subHours1 (addYears1 t)).key := by
  obtain ⟨y, m, d, hh, u⟩ := t
  obtain ⟨h1, h2, h3, h4, h5⟩ := h
  have d1 := dim_le y m
  have d2 := dim_ge (y + 1) m
  have d3 := dim_ge (y + 1) (m - 1)
  unfold subHours1 subDays1 addYears1 TS.key TS.ym
  dsimp only at *
  split_ifs <;> (try dsimp only at *) <;> omega

theorem key_lt_floor_addYears1 {t : TS} (h : t.Valid) :
    t.key < (floorDay (addYears1 t)).key := by
  obtain ⟨y, m, d, hh, u⟩ := t
  obtain ⟨h1, h2, h3, h4, h5⟩ := h
  have d1 := dim_le y m
  have d2 := dim_ge (y + 1) m
  unfold floorDay addYears1 TS.key TS.ym
  dsimp only at *
  omega

theorem key_lt_subDays1_addMonths1 {t : TS} (h : t.Valid) :
    t.key < (subDays1 (addMonths1 t)).key := by
  obtain ⟨y, m, d, hh, u⟩ := t
  obtain ⟨h1, h2, h3, h4, h5⟩ := h
  have d1 := dim_le y m
  have d2 := dim_ge y m
  have d3 : dim (y + 1) 1 = 31 := dim_1 _
  have d4 := dim_ge y (m + 1)
  have d5 := dim_le y (m + 1)
  have d6 := dim_ge y (m + 1 - 1)
  have d7 := dim_le y (m + 1 - 1)
  unfold subDays1 addMonths1 TS.key TS.ym
  dsimp only at *
  split_ifs <;> (try dsimp only at *) <;> omega

theorem key_lt_subHours1_addMonths1_of_hour0 {t : TS} (h : t.Valid) (h0 : t.hour = 0) :
    t.key < (subHours1 (addMonths1 t)).key := by
  obtain ⟨y, m, d, hh, u⟩ := t
  obtain ⟨h1, h2, h3, h4, h5⟩ := h
  have d1 := dim_le y m
  have d2 := dim_ge y m
  have d3 : dim (y + 1) 1 = 31 := dim_1 _
  have d4 := dim_ge y (m + 1)
  have d5 := dim_le y (m + 1)
  have d6 := dim_ge y (m + 1 - 1)
  have d7 := dim_le y (m + 1 - 1)
  unfold subHours1 subDays1 addMonths1 TS.key TS.ym
  dsimp only at *
  split_ifs <;> (try dsimp only at *) <;> omega

theorem key_subHours1_le_subHours1_addMonths1_floorDay {t : TS} (h : t.Valid)
    (hy : 1 ≤ t.year) :
    (subHours1 t).key ≤ (subHours1 (addMonths1 (floorDay t))).key := by
  obtain ⟨y, m, d, hh, u⟩ := t
  obtain ⟨h1, h2, h3, h4, h5⟩ := h
  have d1 := dim_le y m
  have d2 := dim_ge y m
  have d3 : dim (y + 1) 1 = 31 := dim_1 _
  have d4 := dim_ge y (m + 1)
  have d5 := dim_le y (m + 1)
  have d6 := dim_ge y (m + 1 - 1)
  have d7 := dim_le y (m + 1 - 1)
  have d8 := dim_ge y (m - 1)
  have d9 := dim_le y (m - 1)
  unfold subHours1 subDays1 addMonths1 floorDay TS.key TS.ym
  dsimp only at *
  split_ifs <;> (try dsimp only at *) <;> omega

theorem key_floorDay_le_subHours1 {t : TS} (h : t.Valid) (h1 : 1 ≤ t.hour) :
    (floorDay t).key ≤ (subHours1 t).key := by
  obtain ⟨y, m, d, hh, u⟩ := t
  obtain ⟨g1, g2, g3, g4, g5⟩ := h
  unfold floorDay subHours1 subDays1 TS.key TS.ym
  dsimp only at *
  split_ifs <;> (try dsimp only at *) <;> omega

/-! Round trips and commutations among the primitives. -/

theorem addDays1_subDays1 {t : TS} (h : t.Valid) (hy : 1 ≤ t.year) :
    addDays1 (subDays1 t) = t := by
  obtain ⟨y, m, d, hh, u⟩ := t
  obtain ⟨h1, h2, h3, h4, h5⟩ := h
  have d1 := dim_ge y m
  have d2 := dim_ge y (m - 1)
  have d3 : dim (y - 1) 12 = 31 := dim_12 _
  unfold addDays1 subDays1
  dsimp only at *
  split_ifs <;> (try dsimp only at *) <;>
    first
      | (exfalso; omega)
      | (simp only [TS.mk.injEq, eq_self_iff_true, and_true, true_and]; omega)

theorem addHours1_subHours1 {t : TS} (h : t.Valid) (hy : 1 ≤ t.year) :
    addHours1 (subHours1 t) = t := by
  obtain ⟨y, m, d, hh, u⟩ := t
  obtain ⟨h1, h2, h3, h4, h5⟩ := h
  have d1 := dim_ge y m
  have d2 := dim_ge y (m - 1)
  have d3 : dim (y - 1) 12 = 31 := dim_12 _
  unfold addHours1 subHours1 addDays1 subDays1
  dsimp only at *
  split_ifs <;> (try dsimp only at *) <;>
    first
      | (exfalso; omega)
      | (simp only [TS.mk.injEq, eq_self_iff_true, and_true, true_and]; omega)

theorem addMonths1_floorDay (t : TS) :
    addMonths1 (floorDay t) = floorDay (addMonths1 t) := by
  obtain ⟨y, m, d, hh, u⟩ := t
  unfold addMonths1 floorDay
  dsimp only
  split_ifs <;> rfl

/-! Month-axis bookkeeping for the loop fuel. -/

theorem ym_addMonths1 {t : TS} (h : t.Valid) : (addMonths1 t).ym = t.ym + 1 := by
  obtain ⟨y, m, d, hh, u⟩ := t
  obtain ⟨h1, h2, h3, h4, h5⟩ := h
  unfold addMonths1 TS.ym
  dsimp only at *
  split_ifs <;> (try dsimp only at *) <;> omega

theorem key_lt_of_ym_lt {a b : TS} (ha : a.Valid) (hb : b.Valid) (hym : a.ym < b.ym) :
    a.key < b.key := by
  obtain ⟨y1, m1, d1, hh1, u1⟩ := a
  obtain ⟨y2, m2, d2, hh2, u2⟩ := b
  obtain ⟨a1, a2, a3, a4, a5⟩ := ha
  obtain ⟨b1, b2, b3, b4, b5⟩ := hb
  have e1 := dim_le y1 m1
  have e2 := dim_le y2 m2
  unfold TS.key TS.ym at *
  dsimp only at *
  omega

theorem ym_le_of_key_le {a b : TS} (ha : a.Valid) (hb : b.Valid) (h : a.key ≤ b.key) :
    a.ym ≤ b.ym := by
  by_contra hc
  exact absurd (key_lt_of_ym_lt hb ha (by omega)) (by omega)

/-! The cursor of the generation loop: facts about iterated month steps. -/

theorem valid_iterate {s : TS} (h : s.Valid) (k : Nat) : (addMonths1^[k] s).Valid := by
  induction k generalizing s with
  | zero => simpa using h
  | succ n ih =>
      rw [Function.iterate_succ_apply]
      exact ih (valid_addMonths1 h)

theorem hour_iterate (s : TS) (k : Nat) : (addMonths1^[k] s).hour = s.hour := by
  induction k generalizing s with
  | zero => simp
  | succ n ih =>
      rw [Function.iterate_succ_apply]
      rw [ih (addMonths1 s), addMonths1_hour]

theorem utc_iterate (s : TS) (k : Nat) : (addMonths1^[k] s).utc = s.utc := by
  induction k generalizing s with
  | zero => simp
  | succ n ih =>
      rw [Function.iterate_succ_apply]
      rw [ih (addMonths1 s), addMonths1_utc]

theorem key_le_iterate {s : TS} (h : s.Valid) (k : Nat) :
    s.key ≤ (addMonths1^[k] s).key := by
  induction k generalizing s with
  | zero => simp
  | succ n ih =>
      rw [Function.iterate_succ_apply]
      exact le_trans (le_of_lt (key_lt_addMonths1 h)) (ih (valid_addMonths1 h))

theorem ym_iterate {s : TS} (h : s.Valid) (k : Nat) :
    (addMonths1^[k] s).ym = s.ym + k := by
  induction k generalizing s with
  | zero => simp
  | succ n ih =>
      rw [Function.iterate_succ_apply]
      rw [ih (valid_addMonths1 h), ym_addMonths1 h]
      omega

/-! Structure of the generation loop. -/

theorem walkAux_succ (mk : TS → Period) (fin : TS) (n : Nat) (cur : TS) :
    walkAux mk fin (n + 1) cur =
      if cur.key ≤ fin.key then
        (if fin.key < (mk cur).test_end.key then []
         else mk cur :: walkAux mk fin n (addMonths1 cur))
      else [] := rfl

theorem walkAux_mem {mk : TS → Period} {fin : TS} :
    ∀ {f : Nat} {cur : TS} {p : Period}, p ∈ walkAux mk fin f cur →
      ∃ k, p = mk (addMonths1^[k] cur) ∧ p.test_end.key ≤ fin.key := by
  intro f
  induction f with
  | zero => intro cur p hp; simp [walkAux] at hp
  | succ n ih =>
      intro cur p hp
      simp only [walkAux] at hp
      split_ifs at hp with h1 h2
      · simp at hp
      · rcases List.mem_cons.mp hp with heq | htail
        · exact ⟨0, by simpa using heq, by subst heq; omega⟩
        · obtain ⟨k, hk, hle⟩ := ih htail
          exact ⟨k + 1, by rw [hk, Function.iterate_succ_apply], hle⟩
      · simp at hp

theorem walkAux_getElem {mk : TS → Period} {fin : TS} :
    ∀ (f : Nat) (cur : TS) (i : Nat) (p : Period),
      (walkAux mk fin f cur)[i]? = some p → p = mk (addMonths1^[i] cur) := by
  intro f
  induction f with
  | zero => intro cur i p hp; simp [walkAux] at hp
  | succ n ih =>
      intro cur i p hp
      simp only [walkAux] at hp
      split_ifs at hp with h1 h2
      · simp at hp
      · match i with
        | 0 =>
            simp only [List.getElem?_cons_zero, Option.some.injEq] at hp
            subst hp
            simp
        | j + 1 =>
            simp only [List.getElem?_cons_succ] at hp
            rw [ih (addMonths1 cur) j p hp, Function.iterate_succ_apply]
      · simp at hp

theorem walkAux_stop {mk : TS → Period} {e : TS} (he : e.Valid) :
    ∀ (f : Nat) (cur : TS), cur.Valid → e.ym + 1 ≤ cur.ym + f →
      ¬((addMonths1^[(walkAux mk e f cur).length] cur).key ≤ e.key ∧
        (mk (addMonths1^[(walkAux mk e f cur).length] cur)).test_end.key ≤ e.key) := by
  intro f
  induction f with
  | zero =>
      intro cur hv hf
      simp only [walkAux, List.length_nil, Function.iterate_zero_apply]
      rintro ⟨hc, -⟩
      have := key_lt_of_ym_lt he hv (by omega)
      omega
  | succ n ih =>
      intro cur hv hf
      simp only [walkAux]
      split_ifs with h1 h2
      · simp only [List.length_nil, Function.iterate_zero_apply]
        rintro ⟨-, htest⟩
        omega
      · simp only [List.length_cons]
        rw [Function.iterate_succ_apply]
        refine ih (addMonths1 cur) (valid_addMonths1 hv) ?_
        have := ym_addMonths1 hv
        omega
      · simp only [List.length_nil, Function.iterate_zero_apply]
        rintro ⟨hc, -⟩
        exact h1 hc

theorem walkAux_cons {mk : TS → Period} {fin cur : TS} {f : Nat}
    (h1 : cur.key ≤ fin.key) (h2 : (mk cur).test_end.key ≤ fin.key) (hf : 1 ≤ f) :
    walkAux mk fin f cur = mk cur :: walkAux mk fin (f - 1) (addMonths1 cur) := by
  obtain ⟨n, rfl⟩ : ∃ n, f = n + 1 := ⟨f - 1, by omega⟩
  simp only [walkAux]
  rw [if_pos h1, if_neg (by omega)]
  norm_num

theorem walkAux_empty_iff {mk : TS → Period} {s e : TS} (hs : s.Valid) (he : e.Valid)
    (hchain : s.key ≤ (mk s).test_end.key) :
    (walkAux mk e (fuelFor s e) s = [] ↔ e.key < (mk s).test_end.key) := by
  rcases le_or_lt (mk s).test_end.key e.key with hte | hte
  · have hle : s.key ≤ e.key := le_trans hchain hte
    have hymle : s.ym ≤ e.ym := ym_le_of_key_le hs he hle
    have hcons := @walkAux_cons mk e s (fuelFor s e) hle hte
      (by unfold fuelFor; omega)
    rw [hcons]
    exact iff_of_false (List.cons_ne_nil _ _) (by omega)
  · refine iff_of_true ?_ hte
    rcases Nat.eq_zero_or_pos (fuelFor s e) with hf0 | hfpos
    · rw [hf0]
      rfl
    · obtain ⟨n, hn⟩ : ∃ n, fuelFor s e = n + 1 := ⟨fuelFor s e - 1, by omega⟩
      rw [hn, walkAux_succ]
      split_ifs with h1 <;> rfl

/-! Shape of the two loop bodies. -/

theorem mkPeriodDaily_train_start (c : TS) : (mkPeriodDaily c).train_start = c := rfl

theorem mkPeriodDaily_train_end (c : TS) :
    (mkPeriodDaily c).train_end = subDays1 (addYears1 c) := rfl

theorem mkPeriodDaily_test_start (c : TS) :
    (mkPeriodDaily c).test_start = addDays1 (subDays1 (addYears1 c)) := rfl

theorem mkPeriodDaily_test_end (c : TS) :
    (mkPeriodDaily c).test_end = subDays1 (addMonths1 (addDays1 (subDays1 (addYears1 c)))) := rfl

theorem mkPeriodDaily_test_start_eq {c : TS} (h : c.Valid) :
    (mkPeriodDaily c).test_start = addYears1 c := by
  rw [mkPeriodDaily_test_start]
  exact addDays1_subDays1 (valid_addYears1 h) (by rw [addYears1_year]; omega)

theorem mkPeriodDaily_test_end_eq {c : TS} (h : c.Valid) :
    (mkPeriodDaily c).test_end = subDays1 (addMonths1 (addYears1 c)) := by
  rw [mkPeriodDaily_test_end, addDays1_subDays1 (valid_addYears1 h) (by rw [addYears1_year]; omega)]

theorem mkPeriodHourly_train_start (c : TS) : (mkPeriodHourly c).train_start = c := rfl

theorem mkPeriodHourly_train_end (c : TS) :
    (mkPeriodHourly c).train_end = subHours1 (addYears1 c) := rfl

theorem mkPeriodHourly_test_start (c : TS) :
    (mkPeriodHourly c).test_start = floorDay (addHours1 (subHours1 (addYears1 c))) := rfl

theorem mkPeriodHourly_test_end (c : TS) :
    (mkPeriodHourly c).test_end
      = subHours1 (addMonths1 (floorDay (addHours1 (subHours1 (addYears1 c))))) := rfl

theorem mkPeriodHourly_test_start_eq {c : TS} (h : c.Valid) :
    (mkPeriodHourly c).test_start = floorDay (addYears1 c) := by
  rw [mkPeriodHourly_test_start,
      addHours1_subHours1 (valid_addYears1 h) (by rw [addYears1_year]; omega)]

theorem mkPeriodHourly_test_end_eq {c : TS} (h : c.Valid) :
    (mkPeriodHourly c).test_end = subHours1 (addMonths1 (floorDay (addYears1 c))) := by
  rw [mkPeriodHourly_test_end,
      addHours1_subHours1 (valid_addYears1 h) (by rw [addYears1_year]; omega)]

/-- Ordering of the four bounds of a daily-variant period: the full chain
train_start < train_end < test_start < test_end holds unconditionally. -/
theorem mkPeriodDaily_chain {c : TS} (h : c.Valid) :
    c.key < (mkPeriodDaily c).train_end.key ∧
    (mkPeriodDaily c).train_end.key < (mkPeriodDaily c).test_start.key ∧
    (mkPeriodDaily c).test_start.key < (mkPeriodDaily c).test_end.key := by
  refine ⟨?_, ?_, ?_⟩
  · rw [mkPeriodDaily_train_end]
    exact key_lt_trainEndD h
  · rw [mkPeriodDaily_train_end, mkPeriodDaily_test_start]
    exact key_lt_addDays1 (valid_subDays1 (valid_addYears1 h))
  · rw [mkPeriodDaily_test_start, mkPeriodDaily_test_end]
    exact key_lt_subDays1_addMonths1 (valid_addDays1 (valid_subDays1 (valid_addYears1 h)))

/-- Ordering of the four bounds of an hourly-variant period. The relation
between train_end and test_start depends on the time of day of the cursor:
at midnight the chain is strict, at hour 1 or later test_start rolls back
to or before train_end. -/
theorem mkPeriodHourly_facts {c : TS} (h : c.Valid) :
    c.key < (mkPeriodHourly c).train_end.key ∧
    c.key < (mkPeriodHourly c).test_start.key ∧
    (mkPeriodHourly c).test_start.key < (mkPeriodHourly c).test_end.key ∧
    (mkPeriodHourly c).train_end.key ≤ (mkPeriodHourly c).test_end.key ∧
    (c.hour = 0 → (mkPeriodHourly c).train_end.key < (mkPeriodHourly c).test_start.key) ∧
    (1 ≤ c.hour → (mkPeriodHourly c).test_start.key ≤ (mkPeriodHourly c).train_end.key) := by
  have hy1 : 1 ≤ (addYears1 c).year := by rw [addYears1_year]; omega
  have hv1 : (addYears1 c).Valid := valid_addYears1 h
  refine ⟨?_, ?_, ?_, ?_, ?_, ?_⟩
  · rw [mkPeriodHourly_train_end]
    exact key_lt_trainEndH h
  · rw [mkPeriodHourly_test_start_eq h]
    exact key_lt_floor_addYears1 h
  · have hvts : (mkPeriodHourly c).test_start.Valid := by
      rw [mkPeriodHourly_test_start]
      exact valid_floorDay (valid_addHours1 (valid_subHours1 hv1))
    have h0 : (mkPeriodHourly c).test_start.hour = 0 := by
      rw [mkPeriodHourly_test_start]; exact floorDay_hour _
    have := key_lt_subHours1_addMonths1_of_hour0 hvts h0
    exact this
  · rw [mkPeriodHourly_train_end, mkPeriodHourly_test_end_eq h]
    exact key_subHours1_le_subHours1_addMonths1_floorDay hv1 hy1
  · intro hc0
    rw [mkPeriodHourly_train_end, mkPeriodHourly_test_start_eq h,
        floorDay_of_hour0 (by rw [addYears1_hour]; exact hc0)]
    exact key_subHours1_lt hv1 hy1
  · intro hc1
    rw [mkPeriodHourly_train_end, mkPeriodHourly_test_start_eq h]
    exact key_floorDay_le_subHours1 hv1 (by rw [addYears1_hour]; omega)

/-! Behavior of the slicing loop. -/

theorem sliceOne_ok {ρ : Type} (df : DataFrame ρ) (c : String) (p : Period)
    (hc : c ∈ df.cols)
    (h1 : df.colUtc c = p.train_start.utc) (h2 : df.colUtc c = p.train_end.utc)
    (h3 : df.colUtc c = p.test_start.utc) (h4 : df.colUtc c = p.test_end.utc) :
    sliceOne df c p = Except.ok
      (df.rows.filter (fun r =>
          decide (p.train_start.key ≤ (df.entry r c).key) &&
          decide ((df.entry r c).key ≤ p.train_end.key)),
       df.rows.filter (fun r =>
          decide (p.test_start.key ≤ (df.entry r c).key) &&
          decide ((df.entry r c).key ≤ p.test_end.key))) := by
  unfold sliceOne seriesGe seriesLe
  rw [if_pos hc, if_pos h1, if_pos hc, if_pos h2, if_pos hc, if_pos h3, if_pos hc, if_pos h4]
  rfl

theorem sliceOne_missing {ρ : Type} (df : DataFrame ρ) (c : String) (p : Period)
    (hc : c ∉ df.cols) :
    sliceOne df c p = Except.error ("KeyError: " ++ c) := by
  unfold sliceOne seriesGe
  rw [if_neg hc]
  rfl

theorem sliceOne_mismatch {ρ : Type} (df : DataFrame ρ) (c : String) (p : Period)
    (hc : c ∈ df.cols) (hm : ¬(df.colUtc c = p.train_start.utc)) :
    sliceOne df c p =
      Except.error "TypeError: Invalid comparison between dtype=datetime64 and Timestamp" := by
  unfold sliceOne seriesGe
  rw [if_pos hc, if_neg hm]
  rfl

theorem slice_data_by_period_ok {ρ : Type} (df : DataFrame ρ) (ps : List Period) (c : String)
    (hc : c ∈ df.cols)
    (hutc : ∀ p ∈ ps, df.colUtc c = p.train_start.utc ∧ df.colUtc c = p.train_end.utc ∧
        df.colUtc c = p.test_start.utc ∧ df.colUtc c = p.test_end.utc) :
    slice_data_by_period df ps c = Except.ok (ps.map fun p =>
      (df.rows.filter (fun r =>
          decide (p.train_start.key ≤ (df.entry r c).key) &&
          decide ((df.entry r c).key ≤ p.train_end.key)),
       df.rows.filter (fun r =>
          decide (p.test_start.key ≤ (df.entry r c).key) &&
          decide ((df.entry r c).key ≤ p.test_end.key)))) := by
  induction ps with
  | nil => rfl
  | cons p ps ih =>
      obtain ⟨h1, h2, h3, h4⟩ := hutc p (List.mem_cons_self _ _)
      have hrest := ih (fun q hq => hutc q (List.mem_cons_of_mem _ hq))
      unfold slice_data_by_period
      rw [sliceOne_ok df c p hc h1 h2 h3 h4]
      rw [List.map_cons]
      show (Except.ok _).bind _ = _
      rw [Except.bind]
      show slice_data_by_period df ps c >>= _ = _
      rw [show slice_data_by_period df ps c >>= _ =
            (slice_data_by_period df ps c).bind _ from rfl]
      rw [hrest, Except.bind]

/-! Claim theorems. -/

/-- C1: the claim as stated is false. In the hourly variant with start
2021-06-01 02:00 the first emitted period has test_start 2022-06-01 00:00
strictly before train_end 2022-06-01 01:00, because test_start resets the
time of day of train_end + 1 hour back to 00:00; so train_end < test_start
fails. -/
theorem generate_periods_order_chain_counterexample :
    ∃ p ∈ (PeriodGenerator.init ⟨2021, 6, 1, 2, none⟩
        ⟨2022, 6, 30, 23, none⟩).generate_periods,
      p.test_start.key < p.train_end.key := by decide

/-- C1 (amended): every emitted period of the daily variant satisfies the
strict chain train_start < train_end < test_start < test_end; in the hourly
variant train_start < train_end, test_start < test_end and train_end ≤
test_end always hold, but train_end < test_start holds exactly for starts
at midnight: with start hour 0 it holds, and with start hour 1 or later
test_start falls back to or before train_end. -/
theorem generate_periods_order_chain (s e : TS) (hs : s.Valid) (he : e.Valid) :
    (∀ p ∈ generate_periods_ts s e,
        p.train_start.key < p.train_end.key ∧
        p.train_end.key < p.test_start.key ∧
        p.test_start.key < p.test_end.key) ∧
    (∀ p ∈ (PeriodGenerator.mk s e).generate_periods,
        p.train_start.key < p.train_end.key ∧
        p.test_start.key < p.test_end.key ∧
        p.train_end.key ≤ p.test_end.key ∧
        (s.hour = 0 → p.train_end.key < p.test_start.key) ∧
        (1 ≤ s.hour → p.test_start.key ≤ p.train_end.key)) := by
  constructor
  · intro p hp
    obtain ⟨k, rfl, -⟩ := walkAux_mem hp
    have hvk := valid_iterate hs k
    obtain ⟨ha, hb, hc2⟩ := mkPeriodDaily_chain hvk
    exact ⟨ha, hb, hc2⟩
  · intro p hp
    have hp2 : p ∈ walkAux mkPeriodHourly e (fuelFor s e) s := hp
    obtain ⟨k, rfl, -⟩ := walkAux_mem hp2
    have hvk := valid_iterate hs k
    have hf := mkPeriodHourly_facts hvk
    have hh : (addMonths1^[k] s).hour = s.hour := hour_iterate s k
    exact ⟨hf.1, hf.2.2.1, hf.2.2.2.1,
      fun h0 => hf.2.2.2.2.1 (hh.trans h0),
      fun h1 => hf.2.2.2.2.2 (by omega)⟩

/-- Witness for the amended C1 theorem at a concrete input that emits
periods in both variants. -/
theorem generate_periods_order_chain_witness :
    (⟨2021, 6, 1, 0, false⟩ : TS).Valid ∧ (⟨2022, 7, 31, 0, false⟩ : TS).Valid ∧
    ((∀ p ∈ generate_periods_ts ⟨2021, 6, 1, 0, false⟩ ⟨2022, 7, 31, 0, false⟩,
        p.train_start.key < p.train_end.key ∧
        p.train_end.key < p.test_start.key ∧
        p.test_start.key < p.test_end.key) ∧
     (∀ p ∈ (PeriodGenerator.mk ⟨2021, 6, 1, 0, false⟩
          ⟨2022, 7, 31, 0, false⟩).generate_periods,
        p.train_start.key < p.train_end.key ∧
        p.test_start.key < p.test_end.key ∧
        p.train_end.key ≤ p.test_end.key ∧
        ((⟨2021, 6, 1, 0, false⟩ : TS).hour = 0 → p.train_end.key < p.test_start.key) ∧
        (1 ≤ (⟨2021, 6, 1, 0, false⟩ : TS).hour → p.test_start.key ≤ p.train_end.key))) :=
  ⟨by decide, by decide,
    generate_periods_order_chain ⟨2021, 6, 1, 0, false⟩ ⟨2022, 7, 31, 0, false⟩
      (by decide) (by decide)⟩

/-- C2: the claim as stated is false. With start 2021-06-01 and end
2022-06-30, end - start is one day short of one year plus one month (the
second conjunct), yet the daily variant emits one period, whose test_end
falls exactly on the end bound. -/
theorem generate_periods_empty_counterexample :
    generate_periods_ts ⟨2021, 6, 1, 0, false⟩ ⟨2022, 6, 30, 0, false⟩ ≠ [] ∧
    (⟨2022, 6, 30, 0, false⟩ : TS).key
      < (addMonths1 (addYears1 ⟨2021, 6, 1, 0, false⟩)).key := by decide

/-- C2 (amended): generate_periods returns zero periods exactly when the
end bound is strictly earlier than the first candidate test_end, which is
start + 1 year + 1 month - 1 day for the daily variant and
(start + 1 year floored to midnight) + 1 month - 1 hour for the hourly
variant; the empty sequence is an ordinary return value (the embedded
functions are total). -/
theorem generate_periods_empty_iff (s e : TS) (hs : s.Valid) (he : e.Valid) :
    (generate_periods_ts s e = [] ↔ e.key < (mkPeriodDaily s).test_end.key) ∧
    ((PeriodGenerator.mk s e).generate_periods = []
        ↔ e.key < (mkPeriodHourly s).test_end.key) ∧
    (mkPeriodDaily s).test_end = subDays1 (addMonths1 (addYears1 s)) ∧
    (mkPeriodHourly s).test_end = subHours1 (addMonths1 (floorDay (addYears1 s))) := by
  have hd := mkPeriodDaily_chain hs
  have hh := mkPeriodHourly_facts hs
  refine ⟨?_, ?_, mkPeriodDaily_test_end_eq hs, mkPeriodHourly_test_end_eq hs⟩
  · exact walkAux_empty_iff hs he (by omega)
  · show walkAux mkPeriodHourly e (fuelFor s e) s = []
        ↔ e.key < (mkPeriodHourly s).test_end.key
    exact walkAux_empty_iff hs he (by omega)

/-- Witness for the amended C2 theorem: a range one day too short for the
first period, in which both variants return the empty sequence. -/
theorem generate_periods_empty_iff_witness :
    (⟨2021, 6, 1, 0, false⟩ : TS).Valid ∧ (⟨2022, 6, 29, 0, false⟩ : TS).Valid ∧
    ((generate_periods_ts ⟨2021, 6, 1, 0, false⟩ ⟨2022, 6, 29, 0, false⟩ = []
        ↔ (⟨2022, 6, 29, 0, false⟩ : TS).key
            < (mkPeriodDaily ⟨2021, 6, 1, 0, false⟩).test_end.key) ∧
     ((PeriodGenerator.mk ⟨2021, 6, 1, 0, false⟩ ⟨2022, 6, 29, 0, false⟩).generate_periods = []
        ↔ (⟨2022, 6, 29, 0, false⟩ : TS).key
            < (mkPeriodHourly ⟨2021, 6, 1, 0, false⟩).test_end.key) ∧
     (mkPeriodDaily ⟨2021, 6, 1, 0, false⟩).test_end
        = subDays1 (addMonths1 (addYears1 ⟨2021, 6, 1, 0, false⟩)) ∧
     (mkPeriodHourly ⟨2021, 6, 1, 0, false⟩).test_end
        = subHours1 (addMonths1 (floorDay (addYears1 ⟨2021, 6, 1, 0, false⟩)))) :=
  ⟨by decide, by decide,
    generate_periods_empty_iff ⟨2021, 6, 1, 0, false⟩ ⟨2022, 6, 29, 0, false⟩
      (by decide) (by decide)⟩

/-- C3: every emitted period of either variant lies entirely inside
[global_start, global_end] (all four bounds, in chronological key order),
no emitted test_end exceeds the end bound, and generation stops at the
first candidate whose test window would overrun: the candidate period
following the emitted ones fails the loop guard (its cursor is past the
end, or its test_end overruns the end) and is discarded whole, not
clamped. -/
theorem generate_periods_within_bounds (s e : TS) (hs : s.Valid) (he : e.Valid) :
    (∀ p ∈ generate_periods_ts s e,
        s.key ≤ p.train_start.key ∧ s.key ≤ p.train_end.key ∧
        s.key ≤ p.test_start.key ∧ s.key ≤ p.test_end.key ∧
        p.train_start.key ≤ e.key ∧ p.train_end.key ≤ e.key ∧
        p.test_start.key ≤ e.key ∧ p.test_end.key ≤ e.key) ∧
    (∀ p ∈ (PeriodGenerator.mk s e).generate_periods,
        s.key ≤ p.train_start.key ∧ s.key ≤ p.train_end.key ∧
        s.key ≤ p.test_start.key ∧ s.key ≤ p.test_end.key ∧
        p.train_start.key ≤ e.key ∧ p.train_end.key ≤ e.key ∧
        p.test_start.key ≤ e.key ∧ p.test_end.key ≤ e.key) ∧
    ¬((addMonths1^[(generate_periods_ts s e).length] s).key ≤ e.key ∧
      (mkPeriodDaily (addMonths1^[(generate_periods_ts s e).length] s)).test_end.key ≤ e.key) ∧
    ¬((addMonths1^[((PeriodGenerator.mk s e).generate_periods).length] s).key ≤ e.key ∧
      (mkPeriodHourly
          (addMonths1^[((PeriodGenerator.mk s e).generate_periods).length] s)).test_end.key
        ≤ e.key) := by
  refine ⟨?_, ?_, ?_, ?_⟩
  · intro p hp
    obtain ⟨k, rfl, hte⟩ := walkAux_mem hp
    have hvk := valid_iterate hs k
    have h0 := key_le_iterate hs k
    obtain ⟨ha, hb, hc2⟩ := mkPeriodDaily_chain hvk
    rw [mkPeriodDaily_train_start]
    omega
  · intro p hp
    have hp2 : p ∈ walkAux mkPeriodHourly e (fuelFor s e) s := hp
    obtain ⟨k, rfl, hte⟩ := walkAux_mem hp2
    have hvk := valid_iterate hs k
    have h0 := key_le_iterate hs k
    obtain ⟨ha, hb, hc2, hd2, -, -⟩ := mkPeriodHourly_facts hvk
    rw [mkPeriodHourly_train_start]
    omega
  · exact walkAux_stop he (fuelFor s e) s hs (by unfold fuelFor; omega)
  · show ¬((addMonths1^[(walkAux mkPeriodHourly e (fuelFor s e) s).length] s).key ≤ e.key ∧
        (mkPeriodHourly
            (addMonths1^[(walkAux mkPeriodHourly e (fuelFor s e) s).length] s)).test_end.key
          ≤ e.key)
    exact walkAux_stop he (fuelFor s e) s hs (by unfold fuelFor; omega)

/-- Witness for the C3 theorem at a concrete input that emits periods in
both variants. -/
theorem generate_periods_within_bounds_witness :
    (⟨2021, 6, 1, 0, false⟩ : TS).Valid ∧ (⟨2022, 7, 31, 0, false⟩ : TS).Valid ∧
    ((∀ p ∈ generate_periods_ts ⟨2021, 6, 1, 0, false⟩ ⟨2022, 7, 31, 0, false⟩,
        (⟨2021, 6, 1, 0, false⟩ : TS).key ≤ p.train_start.key ∧
        (⟨2021, 6, 1, 0, false⟩ : TS).key ≤ p.train_end.key ∧
        (⟨2021, 6, 1, 0, false⟩ : TS).key ≤ p.test_start.key ∧
        (⟨2021, 6, 1, 0, false⟩ : TS).key ≤ p.test_end.key ∧
        p.train_start.key ≤ (⟨2022, 7, 31, 0, false⟩ : TS).key ∧
        p.train_end.key ≤ (⟨2022, 7, 31, 0, false⟩ : TS).key ∧
        p.test_start.key ≤ (⟨2022, 7, 31, 0, false⟩ : TS).key ∧
        p.test_end.key ≤ (⟨2022, 7, 31, 0, false⟩ : TS).key) ∧
     (∀ p ∈ (PeriodGenerator.mk ⟨2021, 6, 1, 0, false⟩
          ⟨2022, 7, 31, 0, false⟩).generate_periods,
        (⟨2021, 6, 1, 0, false⟩ : TS).key ≤ p.train_start.key ∧
        (⟨2021, 6, 1, 0, false⟩ : TS).key ≤ p.train_end.key ∧
        (⟨2021, 6, 1, 0, false⟩ : TS).key ≤ p.test_start.key ∧
        (⟨2021, 6, 1, 0, false⟩ : TS).key ≤ p.test_end.key ∧
        p.train_start.key ≤ (⟨2022, 7, 31, 0, false⟩ : TS).key ∧
        p.train_end.key ≤ (⟨2022, 7, 31, 0, false⟩ : TS).key ∧
        p.test_start.key ≤ (⟨2022, 7, 31, 0, false⟩ : TS).key ∧
        p.test_end.key ≤ (⟨2022, 7, 31, 0, false⟩ : TS).key) ∧
     ¬((addMonths1^[(generate_periods_ts ⟨2021, 6, 1, 0, false⟩
            ⟨2022, 7, 31, 0, false⟩).length] ⟨2021, 6, 1, 0, false⟩).key
          ≤ (⟨2022, 7, 31, 0, false⟩ : TS).key ∧
       (mkPeriodDaily (addMonths1^[(generate_periods_ts ⟨2021, 6, 1, 0, false⟩
            ⟨2022, 7, 31, 0, false⟩).length] ⟨2021, 6, 1, 0, false⟩)).test_end.key
          ≤ (⟨2022, 7, 31, 0, false⟩ : TS).key) ∧
     ¬((addMonths1^[((PeriodGenerator.mk ⟨2021, 6, 1, 0, false⟩
            ⟨2022, 7, 31, 0, false⟩).generate_periods).length] ⟨2021, 6, 1, 0, false⟩).key
          ≤ (⟨2022, 7, 31, 0, false⟩ : TS).key ∧
       (mkPeriodHourly (addMonths1^[((PeriodGenerator.mk ⟨2021, 6, 1, 0, false⟩
            ⟨2022, 7, 31, 0, false⟩).generate_periods).length]
            ⟨2021, 6, 1, 0, false⟩)).test_end.key
          ≤ (⟨2022, 7, 31, 0, false⟩ : TS).key)) :=
  ⟨by decide, by decide,
    generate_periods_within_bounds ⟨2021, 6, 1, 0, false⟩ ⟨2022, 7, 31, 0, false⟩
      (by decide) (by decide)⟩

/-- C4: the concrete daily scenario from the spec. With start 2021-06-01
and end 2024-01-01 the daily variant emits 19 periods; period 1 trains on
2021-06-01 through 2022-05-31 and tests on 2022-06-01 through 2022-06-30;
period 2 trains on 2021-07-01 through 2022-06-30 and tests on 2022-07-01
through 2022-07-31; the last emitted test_end is 2023-12-31, every emitted
test_end stays at or before the end bound, and the next candidate period
(cursor 2023-01-01, test_end 2024-01-31) is discarded. -/
theorem generate_periods_daily_concrete :
    (generate_periods ⟨2021, 6, 1, 0, none⟩ ⟨2024, 1, 1, 0, none⟩).length = 19 ∧
    (generate_periods ⟨2021, 6, 1, 0, none⟩ ⟨2024, 1, 1, 0, none⟩)[0]?
      = some ⟨⟨2021, 6, 1, 0, false⟩, ⟨2022, 5, 31, 0, false⟩,
              ⟨2022, 6, 1, 0, false⟩, ⟨2022, 6, 30, 0, false⟩⟩ ∧
    (generate_periods ⟨2021, 6, 1, 0, none⟩ ⟨2024, 1, 1, 0, none⟩)[1]?
      = some ⟨⟨2021, 7, 1, 0, false⟩, ⟨2022, 6, 30, 0, false⟩,
              ⟨2022, 7, 1, 0, false⟩, ⟨2022, 7, 31, 0, false⟩⟩ ∧
    ((generate_periods ⟨2021, 6, 1, 0, none⟩ ⟨2024, 1, 1, 0, none⟩).getLast?).map
        (fun p => p.test_end) = some ⟨2023, 12, 31, 0, false⟩ ∧
    (∀ p ∈ generate_periods ⟨2021, 6, 1, 0, none⟩ ⟨2024, 1, 1, 0, none⟩,
        p.test_end.key ≤ (⟨2024, 1, 1, 0, false⟩ : TS).key) ∧
    (⟨2024, 1, 1, 0, false⟩ : TS).key
      < (mkPeriodDaily (addMonths1^[19] ⟨2021, 6, 1, 0, false⟩)).test_end.key := by
  decide

/-- C5: when the end bound is at least start + 1 year + 1 month (calendar
offsets), both variants return a non-empty sequence and the first period
trains from the start bound itself. -/
theorem generate_periods_nonempty_first (s e : TS) (hs : s.Valid) (he : e.Valid)
    (hgap : (addMonths1 (addYears1 s)).key ≤ e.key) :
    (generate_periods_ts s e ≠ [] ∧
     (generate_periods_ts s e).head?.map (fun p => p.train_start) = some s) ∧
    ((PeriodGenerator.mk s e).generate_periods ≠ [] ∧
     ((PeriodGenerator.mk s e).generate_periods).head?.map (fun p => p.train_start)
        = some s) := by
  have hymY : 1 ≤ (addMonths1 (addYears1 s)).year := by
    have := addMonths1_year_ge (addYears1 s)
    rw [addYears1_year] at this
    omega
  have hdte : (mkPeriodDaily s).test_end.key ≤ e.key := by
    rw [mkPeriodDaily_test_end_eq hs]
    have := key_subDays1_lt (valid_addMonths1 (valid_addYears1 hs)) hymY
    omega
  have hdchain : s.key ≤ (mkPeriodDaily s).test_end.key := by
    have := mkPeriodDaily_chain hs
    omega
  have hdle : s.key ≤ e.key := le_trans hdchain hdte
  have hymle : s.ym ≤ e.ym := ym_le_of_key_le hs he hdle
  have hfpos : 1 ≤ fuelFor s e := by unfold fuelFor; omega
  have hhte : (mkPeriodHourly s).test_end.key ≤ e.key := by
    rw [mkPeriodHourly_test_end_eq hs, addMonths1_floorDay]
    have h1 := key_floorDay_le (addMonths1 (addYears1 s))
    have h2 := key_subHours1_lt
      (valid_floorDay (valid_addMonths1 (valid_addYears1 hs))) hymY
    omega
  have hhchain : s.key ≤ (mkPeriodHourly s).test_end.key := by
    have := mkPeriodHourly_facts hs
    omega
  constructor
  · have hcons := @walkAux_cons mkPeriodDaily e s (fuelFor s e) hdle hdte hfpos
    constructor
    · show walkAux mkPeriodDaily e (fuelFor s e) s ≠ []
      rw [hcons]
      exact List.cons_ne_nil _ _
    · show (walkAux mkPeriodDaily e (fuelFor s e) s).head?.map (fun p => p.train_start)
          = some s
      rw [hcons]
      rfl
  · have hcons := @walkAux_cons mkPeriodHourly e s (fuelFor s e)
      (le_trans hhchain hhte) hhte hfpos
    constructor
    · show walkAux mkPeriodHourly e (fuelFor s e) s ≠ []
      rw [hcons]
      exact List.cons_ne_nil _ _
    · show (walkAux mkPeriodHourly e (fuelFor s e) s).head?.map (fun p => p.train_start)
          = some s
      rw [hcons]
      rfl

/-- Witness for the C5 theorem at a range exactly one year plus one month
long. -/
theorem generate_periods_nonempty_first_witness :
    (⟨2021, 6, 1, 0, false⟩ : TS).Valid ∧ (⟨2022, 7, 1, 0, false⟩ : TS).Valid ∧
    (addMonths1 (addYears1 ⟨2021, 6, 1, 0, false⟩)).key ≤ (⟨2022, 7, 1, 0, false⟩ : TS).key ∧
    ((generate_periods_ts ⟨2021, 6, 1, 0, false⟩ ⟨2022, 7, 1, 0, false⟩ ≠ [] ∧
      (generate_periods_ts ⟨2021, 6, 1, 0, false⟩ ⟨2022, 7, 1, 0, false⟩).head?.map
          (fun p => p.train_start) = some ⟨2021, 6, 1, 0, false⟩) ∧
     ((PeriodGenerator.mk ⟨2021, 6, 1, 0, false⟩ ⟨2022, 7, 1, 0, false⟩).generate_periods
          ≠ [] ∧
      ((PeriodGenerator.mk ⟨2021, 6, 1, 0, false⟩
          ⟨2022, 7, 1, 0, false⟩).generate_periods).head?.map (fun p => p.train_start)
          = some ⟨2021, 6, 1, 0, false⟩)) :=
  ⟨by decide, by decide, by decide,
    generate_periods_nonempty_first ⟨2021, 6, 1, 0, false⟩ ⟨2022, 7, 1, 0, false⟩
      (by decide) (by decide) (by decide)⟩

/-- C6: in both variants, consecutive emitted periods have train_start
values one calendar month apart (calendar-aware offset with day clamping,
not a fixed-day delta), and train_start is strictly increasing. -/
theorem generate_periods_month_step (s e : TS) (hs : s.Valid) (he : e.Valid) :
    (∀ i p q, (generate_periods_ts s e)[i]? = some p →
        (generate_periods_ts s e)[i + 1]? = some q →
        q.train_start = addMonths1 p.train_start ∧
        p.train_start.key < q.train_start.key) ∧
    (∀ i p q, ((PeriodGenerator.mk s e).generate_periods)[i]? = some p →
        ((PeriodGenerator.mk s e).generate_periods)[i + 1]? = some q →
        q.train_start = addMonths1 p.train_start ∧
        p.train_start.key < q.train_start.key) := by
  constructor
  · intro i p q hp hq
    have hp2 := walkAux_getElem (fuelFor s e) s i p hp
    have hq2 := walkAux_getElem (fuelFor s e) s (i + 1) q hq
    subst hp2
    subst hq2
    constructor
    · rw [mkPeriodDaily_train_start, mkPeriodDaily_train_start,
          Function.iterate_succ_apply']
    · rw [mkPeriodDaily_train_start, mkPeriodDaily_train_start,
          Function.iterate_succ_apply']
      exact key_lt_addMonths1 (valid_iterate hs i)
  · intro i p q hp hq
    have hp0 : (walkAux mkPeriodHourly e (fuelFor s e) s)[i]? = some p := hp
    have hq0 : (walkAux mkPeriodHourly e (fuelFor s e) s)[i + 1]? = some q := hq
    have hp2 := walkAux_getElem (fuelFor s e) s i p hp0
    have hq2 := walkAux_getElem (fuelFor s e) s (i + 1) q hq0
    subst hp2
    subst hq2
    constructor
    · rw [mkPeriodHourly_train_start, mkPeriodHourly_train_start,
          Function.iterate_succ_apply']
    · rw [mkPeriodHourly_train_start, mkPeriodHourly_train_start,
          Function.iterate_succ_apply']
      exact key_lt_addMonths1 (valid_iterate hs i)

/-- Witness for the C6 theorem: the first two daily periods of a concrete
run are one calendar month apart. -/
theorem generate_periods_month_step_witness :
    (⟨2021, 6, 1, 0, false⟩ : TS).Valid ∧ (⟨2022, 7, 31, 0, false⟩ : TS).Valid ∧
    (generate_periods_ts ⟨2021, 6, 1, 0, false⟩ ⟨2022, 7, 31, 0, false⟩)[0]?
      = some ⟨⟨2021, 6, 1, 0, false⟩, ⟨2022, 5, 31, 0, false⟩,
              ⟨2022, 6, 1, 0, false⟩, ⟨2022, 6, 30, 0, false⟩⟩ ∧
    (generate_periods_ts ⟨2021, 6, 1, 0, false⟩ ⟨2022, 7, 31, 0, false⟩)[0 + 1]?
      = some ⟨⟨2021, 7, 1, 0, false⟩, ⟨2022, 6, 30, 0, false⟩,
              ⟨2022, 7, 1, 0, false⟩, ⟨2022, 7, 31, 0, false⟩⟩ ∧
    ((⟨⟨2021, 7, 1, 0, false⟩, ⟨2022, 6, 30, 0, false⟩,
        ⟨2022, 7, 1, 0, false⟩, ⟨2022, 7, 31, 0, false⟩⟩ : Period).train_start
        = addMonths1 ((⟨⟨2021, 6, 1, 0, false⟩, ⟨2022, 5, 31, 0, false⟩,
            ⟨2022, 6, 1, 0, false⟩, ⟨2022, 6, 30, 0, false⟩⟩ : Period).train_start) ∧
     ((⟨⟨2021, 6, 1, 0, false⟩, ⟨2022, 5, 31, 0, false⟩,
        ⟨2022, 6, 1, 0, false⟩, ⟨2022, 6, 30, 0, false⟩⟩ : Period).train_start.key
        < (⟨⟨2021, 7, 1, 0, false⟩, ⟨2022, 6, 30, 0, false⟩,
            ⟨2022, 7, 1, 0, false⟩, ⟨2022, 7, 31, 0, false⟩⟩ : Period).train_start.key)) :=
  ⟨by decide, by decide, by decide, by decide,
    (generate_periods_month_step ⟨2021, 6, 1, 0, false⟩ ⟨2022, 7, 31, 0, false⟩
        (by decide) (by decide)).1 0
      ⟨⟨2021, 6, 1, 0, false⟩, ⟨2022, 5, 31, 0, false⟩,
       ⟨2022, 6, 1, 0, false⟩, ⟨2022, 6, 30, 0, false⟩⟩
      ⟨⟨2021, 7, 1, 0, false⟩, ⟨2022, 6, 30, 0, false⟩,
       ⟨2022, 7, 1, 0, false⟩, ⟨2022, 7, 31, 0, false⟩⟩
      (by decide) (by decide)⟩

/-- C7: the claim as stated is false on both counts it makes about
normalization. In the daily variant no normalization to 00:00 happens: a
start at 2021-01-01 12:00 yields a first period whose test_start carries
hour 12. In the hourly variant test_start differs from train_end + 1 hour
whenever that sum is not at midnight: with start 2021-06-01 02:00 the first
period has test_start 2022-06-01 00:00 but train_end + 1 hour =
2022-06-01 02:00. -/
theorem test_start_unit_step_counterexample :
    (∃ p ∈ generate_periods_ts ⟨2021, 1, 1, 12, false⟩ ⟨2022, 2, 1, 0, false⟩,
        p.test_start.hour ≠ 0) ∧
    (∃ p ∈ (PeriodGenerator.init ⟨2021, 6, 1, 2, none⟩
        ⟨2022, 6, 30, 23, none⟩).generate_periods,
        p.test_start ≠ addHours1 p.train_end) := by
  decide

/-- C7 (amended): in every emitted period, the daily variant has
test_start = train_end + one day with the time of day preserved from the
start bound (no normalization to 00:00); the hourly variant has
test_start = (train_end + one hour) with the time of day reset to 00:00,
which coincides with train_end + one hour exactly when the start bound is
at midnight. -/
theorem test_start_unit_step (s e : TS) (hs : s.Valid) (he : e.Valid) :
    (∀ p ∈ generate_periods_ts s e,
        p.test_start = addDays1 p.train_end ∧ p.test_start.hour = s.hour) ∧
    (∀ p ∈ (PeriodGenerator.mk s e).generate_periods,
        p.test_start = floorDay (addHours1 p.train_end) ∧
        (s.hour = 0 → p.test_start = addHours1 p.train_end)) := by
  constructor
  · intro p hp
    obtain ⟨k, rfl, -⟩ := walkAux_mem hp
    have hvk := valid_iterate hs k
    refine ⟨rfl, ?_⟩
    rw [mkPeriodDaily_test_start_eq hvk, addYears1_hour, hour_iterate]
  · intro p hp
    have hp2 : p ∈ walkAux mkPeriodHourly e (fuelFor s e) s := hp
    obtain ⟨k, rfl, -⟩ := walkAux_mem hp2
    have hvk := valid_iterate hs k
    refine ⟨rfl, fun h0 => ?_⟩
    have hch : (addMonths1^[k] s).hour = 0 := (hour_iterate s k).trans h0
    rw [mkPeriodHourly_test_start_eq hvk, mkPeriodHourly_train_end,
        addHours1_subHours1 (valid_addYears1 hvk) (by rw [addYears1_year]; omega),
        floorDay_of_hour0 (by rw [addYears1_hour]; exact hch)]

/-- Witness for the amended C7 theorem at a concrete midnight start. -/
theorem test_start_unit_step_witness :
    (⟨2021, 6, 1, 0, false⟩ : TS).Valid ∧ (⟨2022, 7, 31, 0, false⟩ : TS).Valid ∧
    ((∀ p ∈ generate_periods_ts ⟨2021, 6, 1, 0, false⟩ ⟨2022, 7, 31, 0, false⟩,
        p.test_start = addDays1 p.train_end ∧
        p.test_start.hour = (⟨2021, 6, 1, 0, false⟩ : TS).hour) ∧
     (∀ p ∈ (PeriodGenerator.mk ⟨2021, 6, 1, 0, false⟩
          ⟨2022, 7, 31, 0, false⟩).generate_periods,
        p.test_start = floorDay (addHours1 p.train_end) ∧
        ((⟨2021, 6, 1, 0, false⟩ : TS).hour = 0 →
          p.test_start = addHours1 p.train_end))) :=
  ⟨by decide, by decide,
    test_start_unit_step ⟨2021, 6, 1, 0, false⟩ ⟨2022, 7, 31, 0, false⟩
      (by decide) (by decide)⟩

/-- C8: with the timestamp column present and dtype-compatible with every
period bound, slicing returns ok with, for each period in order, exactly
the rows whose timestamp lies in the inclusive [train_start, train_end]
interval and exactly the rows in the inclusive [test_start, test_end]
interval, as stable filters of the input row list; each subset is a
sublist of the rows (input order preserved), and an empty subset is an
ordinary ok result. -/
theorem slice_data_by_period_exact {ρ : Type} (df : DataFrame ρ) (ps : List Period)
    (c : String) (hc : c ∈ df.cols)
    (hutc : ∀ p ∈ ps, df.colUtc c = p.train_start.utc ∧ df.colUtc c = p.train_end.utc ∧
        df.colUtc c = p.test_start.utc ∧ df.colUtc c = p.test_end.utc) :
    slice_data_by_period df ps c = Except.ok (ps.map fun p =>
      (df.rows.filter (fun r =>
          decide (p.train_start.key ≤ (df.entry r c).key) &&
          decide ((df.entry r c).key ≤ p.train_end.key)),
       df.rows.filter (fun r =>
          decide (p.test_start.key ≤ (df.entry r c).key) &&
          decide ((df.entry r c).key ≤ p.test_end.key)))) ∧
    (∀ p ∈ ps,
      (df.rows.filter (fun r =>
          decide (p.train_start.key ≤ (df.entry r c).key) &&
          decide ((df.entry r c).key ≤ p.train_end.key))).Sublist df.rows ∧
      (df.rows.filter (fun r =>
          decide (p.test_start.key ≤ (df.entry r c).key) &&
          decide ((df.entry r c).key ≤ p.test_end.key))).Sublist df.rows) := by
  refine ⟨slice_data_by_period_ok df ps c hc hutc, ?_⟩
  intro p hp
  exact ⟨List.filter_sublist _, List.filter_sublist _⟩

/-- Witness for the C8 theorem on a concrete four-row frame and one
period: the train subset is the first two rows, the test subset the next
two, in input order. -/
theorem slice_data_by_period_exact_witness :
    ("ts" ∈ dfExample.cols) ∧
    (slice_data_by_period dfExample [periodExample] "ts"
        = Except.ok ([periodExample].map fun p =>
          (dfExample.rows.filter (fun r =>
              decide (p.train_start.key ≤ (dfExample.entry r "ts").key) &&
              decide ((dfExample.entry r "ts").key ≤ p.train_end.key)),
           dfExample.rows.filter (fun r =>
              decide (p.test_start.key ≤ (dfExample.entry r "ts").key) &&
              decide ((dfExample.entry r "ts").key ≤ p.test_end.key)))) ∧
     (∀ p ∈ [periodExample],
        (dfExample.rows.filter (fun r =>
            decide (p.train_start.key ≤ (dfExample.entry r "ts").key) &&
            decide ((dfExample.entry r "ts").key ≤ p.train_end.key))).Sublist
          dfExample.rows ∧
        (dfExample.rows.filter (fun r =>
            decide (p.test_start.key ≤ (dfExample.entry r "ts").key) &&
            decide ((dfExample.entry r "ts").key ≤ p.test_end.key))).Sublist
          dfExample.rows)) :=
  ⟨by decide,
    slice_data_by_period_exact dfExample [periodExample] "ts" (by decide) (by decide)⟩

/-- C9: the claim as stated is false at the empty-period-list edge: when
the period list is empty the slicing loop never touches the table, so a
missing timestamp column raises no error and the call returns ok [] — a
normal return despite the missing column. -/
theorem slice_fails_fast_counterexample :
    "ts" ∉ dfNoCol.cols ∧ slice_data_by_period dfNoCol [] "ts" = Except.ok [] :=
  ⟨by decide, rfl⟩

/-- C9 (amended): provided at least one period is sliced, a missing
timestamp column makes slicing fail fast with a KeyError naming the
column, and a timezone-awareness mismatch between the column dtype and the
period bounds makes it fail fast with a TypeError; in both cases the
result is an error and no subset is returned. With an empty period list
the table is never inspected and ok [] is returned without error. -/
theorem slice_fails_fast {ρ : Type} (df : DataFrame ρ) (c : String) (p : Period)
    (ps : List Period) :
    (c ∉ df.cols →
      slice_data_by_period df (p :: ps) c = Except.error ("KeyError: " ++ c)) ∧
    (c ∈ df.cols → df.colUtc c ≠ p.train_start.utc →
      slice_data_by_period df (p :: ps) c =
        Except.error
          "TypeError: Invalid comparison between dtype=datetime64 and Timestamp") := by
  constructor
  · intro hc
    show (do
        let pair ← sliceOne df c p
        let rest ← slice_data_by_period df ps c
        Except.ok (pair :: rest)) = Except.error ("KeyError: " ++ c)
    rw [sliceOne_missing df c p hc]
    rfl
  · intro hc hm
    show (do
        let pair ← sliceOne df c p
        let rest ← slice_data_by_period df ps c
        Except.ok (pair :: rest)) =
      Except.error "TypeError: Invalid comparison between dtype=datetime64 and Timestamp"
    rw [sliceOne_mismatch df c p hc hm]
    rfl

/-- Witness for the amended C9 theorem: a concrete missing column raises
KeyError and a concrete naive-column versus aware-bounds mismatch raises
TypeError. -/
theorem slice_fails_fast_witness :
    ("zz" ∉ dfExample.cols) ∧
    slice_data_by_period dfExample (periodExample :: []) "zz"
      = Except.error ("KeyError: " ++ "zz") ∧
    ("ts" ∈ dfExample.cols) ∧ (dfExample.colUtc "ts" ≠ periodExampleUtc.train_start.utc) ∧
    slice_data_by_period dfExample (periodExampleUtc :: []) "ts"
      = Except.error
          "TypeError: Invalid comparison between dtype=datetime64 and Timestamp" :=
  ⟨by decide, (slice_fails_fast dfExample "zz" periodExample []).1 (by decide),
   by decide, by decide,
   (slice_fails_fast dfExample "ts" periodExampleUtc []).2 (by decide) (by decide)⟩

/-! Preservation of the timezone-awareness flag, for C10. -/

theorem utc_addHours1_iterate (t : TS) (k : Nat) : (addHours1^[k] t).utc = t.utc := by
  induction k generalizing t with
  | zero => simp
  | succ n ih => rw [Function.iterate_succ_apply, ih, addHours1_utc]

theorem utc_subHours1_iterate (t : TS) (k : Nat) : (subHours1^[k] t).utc = t.utc := by
  induction k generalizing t with
  | zero => simp
  | succ n ih => rw [Function.iterate_succ_apply, ih, subHours1_utc]

theorem shiftHours_utc (t : TS) (n : Int) : (shiftHours t n).utc = t.utc := by
  unfold shiftHours
  split_ifs
  · exact utc_addHours1_iterate t _
  · exact utc_subHours1_iterate t _

theorem pd_to_datetime_utc_utc (r : RawInput) : (pd_to_datetime_utc r).utc = true := by
  obtain ⟨y, m, d, h, tz⟩ := r
  cases tz with
  | none => rfl
  | some o => exact shiftHours_utc _ _

theorem mkPeriodDaily_utc (c : TS) :
    (mkPeriodDaily c).train_start.utc = c.utc ∧ (mkPeriodDaily c).train_end.utc = c.utc ∧
    (mkPeriodDaily c).test_start.utc = c.utc ∧ (mkPeriodDaily c).test_end.utc = c.utc := by
  refine ⟨rfl, ?_, ?_, ?_⟩
  · rw [mkPeriodDaily_train_end, subDays1_utc, addYears1_utc]
  · rw [mkPeriodDaily_test_start, addDays1_utc, subDays1_utc, addYears1_utc]
  · rw [mkPeriodDaily_test_end, subDays1_utc, addMonths1_utc, addDays1_utc,
        subDays1_utc, addYears1_utc]

theorem mkPeriodHourly_utc (c : TS) :
    (mkPeriodHourly c).train_start.utc = c.utc ∧ (mkPeriodHourly c).train_end.utc = c.utc ∧
    (mkPeriodHourly c).test_start.utc = c.utc ∧ (mkPeriodHourly c).test_end.utc = c.utc := by
  refine ⟨rfl, ?_, ?_, ?_⟩
  · rw [mkPeriodHourly_train_end, subHours1_utc, addYears1_utc]
  · rw [mkPeriodHourly_test_start, floorDay_utc, addHours1_utc, subHours1_utc,
        addYears1_utc]
  · rw [mkPeriodHourly_test_end, subHours1_utc, addMonths1_utc, floorDay_utc,
        addHours1_utc, subHours1_utc, addYears1_utc]

/-- C10: the hourly-variant constructor coerces every parseable input,
naive or aware, to a UTC-aware timestamp; a naive input is silently
interpreted as UTC (clock unchanged, flag set) rather than rejected; every
bound of every period the hourly variant emits is tz-aware. The daily
variant performs no coercion: its parse keeps the awareness of the input,
and every bound of every emitted daily period carries exactly the
awareness of the parsed start input. -/
theorem timezone_awareness :
    (∀ r : RawInput, (pd_to_datetime_utc r).utc = true) ∧
    (∀ y m d h : Nat, pd_to_datetime_utc ⟨y, m, d, h, none⟩ = ⟨y, m, d, h, true⟩) ∧
    (∀ r1 r2 : RawInput, ∀ p ∈ (PeriodGenerator.init r1 r2).generate_periods,
        p.train_start.utc = true ∧ p.train_end.utc = true ∧
        p.test_start.utc = true ∧ p.test_end.utc = true) ∧
    (∀ r : RawInput, (pd_to_datetime r).utc = r.tzOffset.isSome) ∧
    (∀ r1 r2 : RawInput, ∀ p ∈ generate_periods r1 r2,
        p.train_start.utc = (pd_to_datetime r1).utc ∧
        p.train_end.utc = (pd_to_datetime r1).utc ∧
        p.test_start.utc = (pd_to_datetime r1).utc ∧
        p.test_end.utc = (pd_to_datetime r1).utc) := by
  refine ⟨pd_to_datetime_utc_utc, fun y m d h => rfl, ?_, fun r => rfl, ?_⟩
  · intro r1 r2 p hp
    have hp2 : p ∈ walkAux mkPeriodHourly (pd_to_datetime_utc r2)
        (fuelFor (pd_to_datetime_utc r1) (pd_to_datetime_utc r2))
        (pd_to_datetime_utc r1) := hp
    obtain ⟨k, rfl, -⟩ := walkAux_mem hp2
    have hit := utc_iterate (pd_to_datetime_utc r1) k
    have hmk := mkPeriodHourly_utc (addMonths1^[k] (pd_to_datetime_utc r1))
    have hu := pd_to_datetime_utc_utc r1
    exact ⟨hmk.1.trans (hit.trans hu), hmk.2.1.trans (hit.trans hu),
           hmk.2.2.1.trans (hit.trans hu), hmk.2.2.2.trans (hit.trans hu)⟩
  · intro r1 r2 p hp
    have hp2 : p ∈ walkAux mkPeriodDaily (pd_to_datetime r2)
        (fuelFor (pd_to_datetime r1) (pd_to_datetime r2)) (pd_to_datetime r1) := hp
    obtain ⟨k, rfl, -⟩ := walkAux_mem hp2
    have hit := utc_iterate (pd_to_datetime r1) k
    have hmk := mkPeriodDaily_utc (addMonths1^[k] (pd_to_datetime r1))
    exact ⟨hmk.1.trans hit, hmk.2.1.trans hit, hmk.2.2.1.trans hit, hmk.2.2.2.trans hit⟩

/-- Witness for the C10 theorem: the single period of a concrete hourly
run has all bounds tz-aware, and the single period of a concrete daily run
on a naive input has all bounds naive. -/
theorem timezone_awareness_witness :
    (periodExampleUtc ∈ (PeriodGenerator.init ⟨2021, 6, 1, 0, none⟩
        ⟨2022, 6, 30, 23, none⟩).generate_periods) ∧
    (periodExampleUtc.train_start.utc = true ∧ periodExampleUtc.train_end.utc = true ∧
     periodExampleUtc.test_start.utc = true ∧ periodExampleUtc.test_end.utc = true) ∧
    ((⟨⟨2021, 6, 1, 0, false⟩, ⟨2022, 5, 31, 0, false⟩,
        ⟨2022, 6, 1, 0, false⟩, ⟨2022, 6, 30, 0, false⟩⟩ : Period)
      ∈ generate_periods ⟨2021, 6, 1, 0, none⟩ ⟨2022, 6, 30, 0, none⟩) ∧
    ((⟨⟨2021, 6, 1, 0, false⟩, ⟨2022, 5, 31, 0, false⟩,
        ⟨2022, 6, 1, 0, false⟩, ⟨2022, 6, 30, 0, false⟩⟩ : Period).train_start.utc
        = (pd_to_datetime ⟨2021, 6, 1, 0, none⟩).utc ∧
     (⟨⟨2021, 6, 1, 0, false⟩, ⟨2022, 5, 31, 0, false⟩,
        ⟨2022, 6, 1, 0, false⟩, ⟨2022, 6, 30, 0, false⟩⟩ : Period).train_end.utc
        = (pd_to_datetime ⟨2021, 6, 1, 0, none⟩).utc ∧
     (⟨⟨2021, 6, 1, 0, false⟩, ⟨2022, 5, 31, 0, false⟩,
        ⟨2022, 6, 1, 0, false⟩, ⟨2022, 6, 30, 0, false⟩⟩ : Period).test_start.utc
        = (pd_to_datetime ⟨2021, 6, 1, 0, none⟩).utc ∧
     (⟨⟨2021, 6, 1, 0, false⟩, ⟨2022, 5, 31, 0, false⟩,
        ⟨2022, 6, 1, 0, false⟩, ⟨2022, 6, 30, 0, false⟩⟩ : Period).test_end.utc
        = (pd_to_datetime ⟨2021, 6, 1, 0, none⟩).utc) :=
  ⟨by decide,
   timezone_awareness.2.2.1 ⟨2021, 6, 1, 0, none⟩ ⟨2022, 6, 30, 23, none⟩
     periodExampleUtc (by decide),
   by decide,
   timezone_awareness.2.2.2.2 ⟨2021, 6, 1, 0, none⟩ ⟨2022, 6, 30, 0, none⟩
     ⟨⟨2021, 6, 1, 0, false⟩, ⟨2022, 5, 31, 0, false⟩,
      ⟨2022, 6, 1, 0, false⟩, ⟨2022, 6, 30, 0, false⟩⟩ (by decide)⟩

end WalkForward
